import Mathlib

/-!
Verification of the transcript-fetcher repository: an HTTP handler
(`src/api/transcript.py`) and a CLI script (`src/scripts/transcript.py`)
that both call the external `youtube_transcript_api` library, run a short
language-fallback chain, and normalise the result into a JSON payload.

The external library is modelled as an opaque environment (`Env`): each
library call either returns a value or raises one of the library's
exceptions (`LibError`).  The Python control flow (try/except chains, the
fallback loop, the per-item conversion) is translated directly; every
library call performed is also recorded in an event trace so that claims
about call order ("first success wins", "later transcripts are never
translated") are statements about the trace.

Python's `int()` on a nonnegative number truncates the fractional part;
times are modelled as rationals and `py_int` is truncation toward zero.
-/

set_option autoImplicit false

/-- One caption entry of a transcript, as produced by the normalisation
step: text plus integer offset and duration in milliseconds. -/
structure Segment where
  text : String
  offset : Int
  duration : Int
deriving DecidableEq, Repr

/-- The normalised result dictionary.  Optional fields model dictionary
keys that are present in some return branches and absent in others. -/
structure TranscriptResult where
  success : Bool
  segments : List Segment
  error : Option String
  language : Option String
  isGenerated : Option Bool
deriving DecidableEq, Repr

/-- A transcript object of the external library, with the three fields the
repository reads: `language_code`, `is_generated`, `is_translatable`. -/
structure Transcript where
  language_code : String
  is_generated : Bool
  is_translatable : Bool
deriving DecidableEq, Repr

/-- The exceptions of the external library that the repository names,
plus a catch-all for any other exception; each carries its `str(e)`. -/
inductive LibError where
  | transcriptsDisabled (msg : String)
  | videoUnavailable (msg : String)
  | noTranscriptFound (msg : String)
  | other (msg : String)
deriving DecidableEq, Repr

/-- `str(e)` of a library exception. -/
def LibError.str : LibError → String
  | .transcriptsDisabled m => m
  | .videoUnavailable m => m
  | .noTranscriptFound m => m
  | .other m => m

/-- One item yielded by `transcript.fetch()`: either a v1.x
`FetchedTranscriptSnippet` object (attribute access, no `.get` method) or
an older-style dict (`.get` access with defaults; keys may be absent). -/
inductive FetchedItem where
  | snippet (text : String) (start : Rat) (duration : Rat)
  | dict (text : Option String) (start : Option Rat) (duration : Option Rat)
deriving DecidableEq, Repr

/-- Whether a fetched item is an older-style dict. -/
def FetchedItem.is_dict : FetchedItem → Bool
  | .snippet _ _ _ => false
  | .dict _ _ _ => true

/-- The object returned by `list_transcripts` / `list`: the iterable of
available transcripts plus the behaviour of its `find_transcript` and
`find_generated_transcript` methods for a requested language list. -/
structure TranscriptList where
  transcripts : List Transcript
  find : List String → Except LibError Transcript
  find_generated : List String → Except LibError Transcript

/-- The opaque external library: the behaviour of each call the
repository makes.  `list_transcripts` is keyed by video id; `translate`
and `fetch` are keyed by the transcript object they are invoked on. -/
structure Env where
  list_transcripts : String → Except LibError TranscriptList
  translate : Transcript → String → Except LibError Transcript
  fetch : Transcript → Except LibError (List FetchedItem)

/-- Trace of the library calls a run performs, in order. -/
inductive Event where
  | listCall (video_id : String)
  | findCall (langs : List String)
  | findGeneratedCall (langs : List String)
  | translateCall (t : Transcript) (lang : String)
  | fetchCall (t : Transcript)
deriving DecidableEq, Repr

/-- Python's `int()` on a rational: truncation toward zero
(`Int.tdiv` is T-division, which rounds toward zero). -/
def py_int (x : Rat) : Int :=
  x.num.tdiv (x.den : Int)

/-- The preferred-language list written inline at both `find_transcript`
and `find_generated_transcript` call sites in both source files. -/
def preferred_languages : List String := ["en", "en-US", "en-GB"]

/-- The innermost fallback loop, identical in both files:
`for t in transcript_list: if t.is_translatable: transcript = t.translate('en'); break`.
Returns the trace of translate calls and either the translated transcript,
`none` (loop finished without a translatable transcript), or the exception
raised by `translate`. -/
def translate_loop (env : Env) : List Transcript → List Event × Except LibError (Option Transcript)
  | [] => ([], .ok none)
  | t :: ts =>
    if t.is_translatable then
      match env.translate t "en" with
      | .ok tr => ([.translateCall t "en"], .ok (some tr))
      | .error e => ([.translateCall t "en"], .error e)
    else translate_loop env ts

/-- The fallback chain, identical in both files: `find_transcript` on the
preferred languages; on `NoTranscriptFound`, `find_generated_transcript`;
on `NoTranscriptFound` again, the translate loop.  Any other exception
from the two find calls propagates. -/
def choose_transcript (env : Env) (tl : TranscriptList) : List Event × Except LibError (Option Transcript) :=
  match tl.find preferred_languages with
  | .ok t => ([.findCall preferred_languages], .ok (some t))
  | .error (.noTranscriptFound _) =>
    match tl.find_generated preferred_languages with
    | .ok t => ([.findCall preferred_languages, .findGeneratedCall preferred_languages], .ok (some t))
    | .error (.noTranscriptFound _) =>
      match translate_loop env tl.transcripts with
      | (evs, r) => ([.findCall preferred_languages, .findGeneratedCall preferred_languages] ++ evs, r)
    | .error e => ([.findCall preferred_languages, .findGeneratedCall preferred_languages], .error e)
  | .error e => ([.findCall preferred_languages], .error e)

/-- The outer `except` chain, identical in both files:
`TranscriptsDisabled` and `VideoUnavailable` map to fixed strings, any
other exception `e` to `str(e)`. -/
def handle_except : LibError → TranscriptResult
  | .transcriptsDisabled _ => ⟨false, [], some "Transcripts are disabled for this video", none, none⟩
  | .videoUnavailable _ => ⟨false, [], some "Video is unavailable", none, none⟩
  | e => ⟨false, [], some e.str, none, none⟩

namespace Api

/-- Modelled: the `str(e)` of the `AttributeError` CPython raises when
`item.get` is evaluated on a v1.x `FetchedTranscriptSnippet` object,
which has no `get` method. -/
def snippet_get_error : String := "'FetchedTranscriptSnippet' object has no attribute 'get'"

/-- The per-item conversion of `handler.fetch_transcript`
(src/api/transcript.py lines 67-76): unconditional `item.get(...)`
access, which raises `AttributeError` on a snippet object. -/
def item_to_segment : FetchedItem → Except LibError Segment
  | .snippet _ _ _ => .error (.other snippet_get_error)
  | .dict text start duration =>
    .ok ⟨text.getD "", py_int (start.getD 0 * 1000), py_int (duration.getD 0 * 1000)⟩

/-- `handler.fetch_transcript` of src/api/transcript.py, with its event
trace.  `YouTubeTranscriptApi.list_transcripts(video_id)` is the
environment's `list_transcripts`. -/
def fetch_transcript (env : Env) (video_id : String) : TranscriptResult × List Event :=
  match env.list_transcripts video_id with
  | .error e => (handle_except e, [.listCall video_id])
  | .ok transcript_list =>
    match choose_transcript env transcript_list with
    | (evs, .error e) => (handle_except e, .listCall video_id :: evs)
    | (evs, .ok none) =>
      (⟨false, [], some "No English transcript available", none, none⟩, .listCall video_id :: evs)
    | (evs, .ok (some transcript)) =>
      match env.fetch transcript with
      | .error e => (handle_except e, .listCall video_id :: (evs ++ [.fetchCall transcript]))
      | .ok data =>
        match data.mapM item_to_segment with
        | .error e => (handle_except e, .listCall video_id :: (evs ++ [.fetchCall transcript]))
        | .ok segments =>
          (⟨true, segments, none, some transcript.language_code, some transcript.is_generated⟩,
           .listCall video_id :: (evs ++ [.fetchCall transcript]))

end Api

namespace Cli

/-- The per-item conversion of `fetch_transcript`
(src/scripts/transcript.py lines 58-72): `hasattr(item, 'text')`
distinguishes v1.x snippet objects from older-style dicts. -/
def item_to_segment : FetchedItem → Segment
  | .snippet text start duration => ⟨text, py_int (start * 1000), py_int (duration * 1000)⟩
  | .dict text start duration =>
    ⟨text.getD "", py_int (start.getD 0 * 1000), py_int (duration.getD 0 * 1000)⟩

/-- `fetch_transcript` of src/scripts/transcript.py, with its event
trace.  `YouTubeTranscriptApi().list(video_id)` is the environment's
`list_transcripts`. -/
def fetch_transcript (env : Env) (video_id : String) : TranscriptResult × List Event :=
  match env.list_transcripts video_id with
  | .error e => (handle_except e, [.listCall video_id])
  | .ok transcript_list =>
    match choose_transcript env transcript_list with
    | (evs, .error e) => (handle_except e, .listCall video_id :: evs)
    | (evs, .ok none) =>
      (⟨false, [], some "No English transcript available", none, none⟩, .listCall video_id :: evs)
    | (evs, .ok (some transcript)) =>
      match env.fetch transcript with
      | .error e => (handle_except e, .listCall video_id :: (evs ++ [.fetchCall transcript]))
      | .ok data =>
        (⟨true, data.map item_to_segment, none, some transcript.language_code, some transcript.is_generated⟩,
         .listCall video_id :: (evs ++ [.fetchCall transcript]))

end Cli

/-- On a nonnegative rational, truncation toward zero is the floor. -/
theorem py_int_of_nonneg (x : Rat) (h : 0 ≤ x) : py_int x = ⌊x⌋ := by
  rw [py_int, Int.tdiv_eq_ediv (Rat.num_nonneg.mpr h) (Int.natCast_nonneg x.den), Rat.floor_def]

/-- The translate loop inspects the transcripts in source order and calls
`translate` exactly once, on the first transcript whose `is_translatable`
flag is true; with no translatable transcript it makes no call and yields
`none`. -/
theorem translate_loop_eq (env : Env) (ts : List Transcript) :
    translate_loop env ts =
      match ts.find? (fun t => t.is_translatable) with
      | none => ([], .ok none)
      | some t0 =>
        match env.translate t0 "en" with
        | .ok tr => ([.translateCall t0 "en"], .ok (some tr))
        | .error e => ([.translateCall t0 "en"], .error e) := by
  induction ts with
  | nil => rfl
  | cons t ts ih =>
    cases h : t.is_translatable with
    | true => simp only [translate_loop, h, if_true, List.find?_cons_of_pos]
    | false =>
      have hf : List.find? (fun t => t.is_translatable) (t :: ts) =
          List.find? (fun t => t.is_translatable) ts :=
        List.find?_cons_of_neg _ (by simp [h])
      simp only [translate_loop, h, Bool.false_eq_true, if_false, hf]
      exact ih

/-- Every failure branch of the outer except chain yields a result with
`success = false`, an `error` string, empty `segments`, and no
`language` or `isGenerated` key. -/
theorem handle_except_shape (e : LibError) :
    (handle_except e).success = false ∧ (handle_except e).segments = [] ∧
    (handle_except e).error.isSome = true ∧ (handle_except e).language = none ∧
    (handle_except e).isGenerated = none := by
  cases e <;> simp [handle_except]

/-- Unfolding of the fallback chain when `find_transcript` succeeds. -/
theorem choose_transcript_of_find_ok (env : Env) (tl : TranscriptList) (t : Transcript)
    (h : tl.find preferred_languages = .ok t) :
    choose_transcript env tl = ([.findCall preferred_languages], .ok (some t)) := by
  unfold choose_transcript
  rw [h]

/-- Unfolding of the fallback chain when `find_transcript` raises an
exception other than `NoTranscriptFound`: it propagates. -/
theorem choose_transcript_of_find_disabled (env : Env) (tl : TranscriptList) (m : String)
    (h : tl.find preferred_languages = .error (.transcriptsDisabled m)) :
    choose_transcript env tl = ([.findCall preferred_languages], .error (.transcriptsDisabled m)) := by
  unfold choose_transcript
  rw [h]

/-- Unfolding of the fallback chain when `find_transcript` raises
`NoTranscriptFound` and `find_generated_transcript` succeeds. -/
theorem choose_transcript_of_generated_ok (env : Env) (tl : TranscriptList) (m : String)
    (t : Transcript) (h1 : tl.find preferred_languages = .error (.noTranscriptFound m))
    (h2 : tl.find_generated preferred_languages = .ok t) :
    choose_transcript env tl =
      ([.findCall preferred_languages, .findGeneratedCall preferred_languages], .ok (some t)) := by
  unfold choose_transcript
  rw [h1, h2]

/-- Unfolding of the fallback chain when both find calls raise
`NoTranscriptFound`: the translate loop decides. -/
theorem choose_transcript_of_both_not_found (env : Env) (tl : TranscriptList) (m m2 : String)
    (h1 : tl.find preferred_languages = .error (.noTranscriptFound m))
    (h2 : tl.find_generated preferred_languages = .error (.noTranscriptFound m2)) :
    choose_transcript env tl =
      ([.findCall preferred_languages, .findGeneratedCall preferred_languages] ++
         (translate_loop env tl.transcripts).1,
       (translate_loop env tl.transcripts).2) := by
  unfold choose_transcript
  rw [h1, h2]

/-- Unfolding of `handler.fetch_transcript` once `list_transcripts`
succeeded. -/
theorem api_fetch_transcript_of_list_ok (env : Env) (vid : String) (tl : TranscriptList)
    (h : env.list_transcripts vid = .ok tl) :
    Api.fetch_transcript env vid =
      match choose_transcript env tl with
      | (evs, .error e) => (handle_except e, .listCall vid :: evs)
      | (evs, .ok none) =>
        (⟨false, [], some "No English transcript available", none, none⟩, .listCall vid :: evs)
      | (evs, .ok (some t)) =>
        match env.fetch t with
        | .error e => (handle_except e, .listCall vid :: (evs ++ [.fetchCall t]))
        | .ok data =>
          match data.mapM Api.item_to_segment with
          | .error e => (handle_except e, .listCall vid :: (evs ++ [.fetchCall t]))
          | .ok segments =>
            (⟨true, segments, none, some t.language_code, some t.is_generated⟩,
             .listCall vid :: (evs ++ [.fetchCall t])) := by
  unfold Api.fetch_transcript
  rw [h]

/-- Unfolding of the CLI `fetch_transcript` once the `list` call
succeeded. -/
theorem cli_fetch_transcript_of_list_ok (env : Env) (vid : String) (tl : TranscriptList)
    (h : env.list_transcripts vid = .ok tl) :
    Cli.fetch_transcript env vid =
      match choose_transcript env tl with
      | (evs, .error e) => (handle_except e, .listCall vid :: evs)
      | (evs, .ok none) =>
        (⟨false, [], some "No English transcript available", none, none⟩, .listCall vid :: evs)
      | (evs, .ok (some t)) =>
        match env.fetch t with
        | .error e => (handle_except e, .listCall vid :: (evs ++ [.fetchCall t]))
        | .ok data =>
          (⟨true, data.map Cli.item_to_segment, none, some t.language_code, some t.is_generated⟩,
           .listCall vid :: (evs ++ [.fetchCall t])) := by
  unfold Cli.fetch_transcript
  rw [h]

/-- Both fetch functions fail identically when `list_transcripts`
raises. -/
theorem fetch_transcript_of_list_error (env : Env) (vid : String) (e : LibError)
    (h : env.list_transcripts vid = .error e) :
    Api.fetch_transcript env vid = (handle_except e, [.listCall vid]) ∧
    Cli.fetch_transcript env vid = (handle_except e, [.listCall vid]) := by
  unfold Api.fetch_transcript Cli.fetch_transcript
  rw [h]
  exact ⟨rfl, rfl⟩

/-- The two front-ends perform the same library calls in the same
order. -/
theorem fetch_traces_eq (env : Env) (vid : String) :
    (Cli.fetch_transcript env vid).2 = (Api.fetch_transcript env vid).2 := by
  cases hl : env.list_transcripts vid with
  | error e =>
    rw [(fetch_transcript_of_list_error env vid e hl).1,
        (fetch_transcript_of_list_error env vid e hl).2]
  | ok tl =>
    rw [api_fetch_transcript_of_list_ok env vid tl hl,
        cli_fetch_transcript_of_list_ok env vid tl hl]
    rcases hc : choose_transcript env tl with ⟨evs, r⟩
    match r with
    | .error e => rfl
    | .ok none => rfl
    | .ok (some t) =>
      cases hf : env.fetch t with
      | error e => simp only [hf]
      | ok data =>
        cases hm : data.mapM Api.item_to_segment with
        | error e => simp only [hf, hm]
        | ok segments => simp only [hf, hm]

/-- The HTTP fetch once a transcript was chosen: the result when the
`fetch()` call and the per-item conversion both succeed. -/
theorem api_fetch_of_chosen_ok (env : Env) (vid : String) (tl : TranscriptList)
    (evs : List Event) (t : Transcript) (data : List FetchedItem) (segments : List Segment)
    (hl : env.list_transcripts vid = .ok tl)
    (hc : choose_transcript env tl = (evs, .ok (some t)))
    (hf : env.fetch t = .ok data)
    (hm : data.mapM Api.item_to_segment = .ok segments) :
    Api.fetch_transcript env vid =
      (⟨true, segments, none, some t.language_code, some t.is_generated⟩,
       .listCall vid :: (evs ++ [.fetchCall t])) := by
  rw [api_fetch_transcript_of_list_ok env vid tl hl, hc]
  simp only [hf, hm]

/-- The CLI fetch once a transcript was chosen: the result when the
`fetch()` call succeeds. -/
theorem cli_fetch_of_chosen_ok (env : Env) (vid : String) (tl : TranscriptList)
    (evs : List Event) (t : Transcript) (data : List FetchedItem)
    (hl : env.list_transcripts vid = .ok tl)
    (hc : choose_transcript env tl = (evs, .ok (some t)))
    (hf : env.fetch t = .ok data) :
    Cli.fetch_transcript env vid =
      (⟨true, data.map Cli.item_to_segment, none, some t.language_code, some t.is_generated⟩,
       .listCall vid :: (evs ++ [.fetchCall t])) := by
  rw [cli_fetch_transcript_of_list_ok env vid tl hl, hc]
  simp only [hf]

/-- Once a transcript is chosen, `fetch()` on it is the next and last
library call of the HTTP front-end, whatever its outcome. -/
theorem api_fetch_trace_of_chosen (env : Env) (vid : String) (tl : TranscriptList)
    (evs : List Event) (t : Transcript)
    (hl : env.list_transcripts vid = .ok tl)
    (hc : choose_transcript env tl = (evs, .ok (some t))) :
    (Api.fetch_transcript env vid).2 = .listCall vid :: (evs ++ [.fetchCall t]) := by
  rw [api_fetch_transcript_of_list_ok env vid tl hl, hc]
  cases hf : env.fetch t with
  | error e => simp only [hf]
  | ok data =>
    cases hm : data.mapM Api.item_to_segment with
    | error e => simp only [hf, hm]
    | ok segments => simp only [hf, hm]

/-- Both front-ends map an exception escaping the fallback chain through
the outer except chain. -/
theorem fetch_of_choose_error (env : Env) (vid : String) (tl : TranscriptList)
    (evs : List Event) (e : LibError)
    (hl : env.list_transcripts vid = .ok tl)
    (hc : choose_transcript env tl = (evs, .error e)) :
    Api.fetch_transcript env vid = (handle_except e, .listCall vid :: evs) ∧
    Cli.fetch_transcript env vid = (handle_except e, .listCall vid :: evs) := by
  rw [api_fetch_transcript_of_list_ok env vid tl hl,
      cli_fetch_transcript_of_list_ok env vid tl hl, hc]
  exact ⟨rfl, rfl⟩

/-- Both front-ends return the fixed no-transcript payload when the
fallback chain ends with `transcript` still `None`. -/
theorem fetch_of_choose_none (env : Env) (vid : String) (tl : TranscriptList)
    (evs : List Event)
    (hl : env.list_transcripts vid = .ok tl)
    (hc : choose_transcript env tl = (evs, .ok none)) :
    Api.fetch_transcript env vid =
      (⟨false, [], some "No English transcript available", none, none⟩, .listCall vid :: evs) ∧
    Cli.fetch_transcript env vid =
      (⟨false, [], some "No English transcript available", none, none⟩, .listCall vid :: evs) := by
  rw [api_fetch_transcript_of_list_ok env vid tl hl,
      cli_fetch_transcript_of_list_ok env vid tl hl, hc]
  exact ⟨rfl, rfl⟩

/-- Both front-ends map an exception raised by `fetch()` through the
outer except chain. -/
theorem fetch_of_fetch_error (env : Env) (vid : String) (tl : TranscriptList)
    (evs : List Event) (t : Transcript) (e : LibError)
    (hl : env.list_transcripts vid = .ok tl)
    (hc : choose_transcript env tl = (evs, .ok (some t)))
    (hf : env.fetch t = .error e) :
    Api.fetch_transcript env vid = (handle_except e, .listCall vid :: (evs ++ [.fetchCall t])) ∧
    Cli.fetch_transcript env vid = (handle_except e, .listCall vid :: (evs ++ [.fetchCall t])) := by
  rw [api_fetch_transcript_of_list_ok env vid tl hl,
      cli_fetch_transcript_of_list_ok env vid tl hl, hc]
  constructor <;> simp only [hf]

/-- The HTTP fetch maps an `AttributeError` (or any exception) raised
while converting items through the outer except chain. -/
theorem api_fetch_of_mapM_error (env : Env) (vid : String) (tl : TranscriptList)
    (evs : List Event) (t : Transcript) (data : List FetchedItem) (e : LibError)
    (hl : env.list_transcripts vid = .ok tl)
    (hc : choose_transcript env tl = (evs, .ok (some t)))
    (hf : env.fetch t = .ok data)
    (hm : data.mapM Api.item_to_segment = .error e) :
    Api.fetch_transcript env vid = (handle_except e, .listCall vid :: (evs ++ [.fetchCall t])) := by
  rw [api_fetch_transcript_of_list_ok env vid tl hl, hc]
  simp only [hf, hm]

/-- Every result of the HTTP fetch is of one of three forms: an outer
except-chain payload, the fixed no-transcript payload, or a success
payload. -/
theorem api_fetch_result_form (env : Env) (vid : String) :
    (∃ e, (Api.fetch_transcript env vid).1 = handle_except e) ∨
    (Api.fetch_transcript env vid).1 =
      ⟨false, [], some "No English transcript available", none, none⟩ ∨
    (∃ lang gen segs, (Api.fetch_transcript env vid).1 = ⟨true, segs, none, some lang, some gen⟩) := by
  cases hl : env.list_transcripts vid with
  | error e => exact .inl ⟨e, congrArg Prod.fst (fetch_transcript_of_list_error env vid e hl).1⟩
  | ok tl =>
    rcases hc : choose_transcript env tl with ⟨evs, r⟩
    match r with
    | .error e =>
      exact .inl ⟨e, congrArg Prod.fst (fetch_of_choose_error env vid tl evs e hl hc).1⟩
    | .ok none =>
      exact .inr (.inl (congrArg Prod.fst (fetch_of_choose_none env vid tl evs hl hc).1))
    | .ok (some t) =>
      cases hf : env.fetch t with
      | error e =>
        exact .inl ⟨e, congrArg Prod.fst (fetch_of_fetch_error env vid tl evs t e hl hc hf).1⟩
      | ok data =>
        cases hm : data.mapM Api.item_to_segment with
        | error e =>
          exact .inl ⟨e, congrArg Prod.fst (api_fetch_of_mapM_error env vid tl evs t data e hl hc hf hm)⟩
        | ok segments =>
          exact .inr (.inr ⟨t.language_code, t.is_generated, segments,
            congrArg Prod.fst (api_fetch_of_chosen_ok env vid tl evs t data segments hl hc hf hm)⟩)

/-- Every result of the CLI fetch is of one of the same three forms. -/
theorem cli_fetch_result_form (env : Env) (vid : String) :
    (∃ e, (Cli.fetch_transcript env vid).1 = handle_except e) ∨
    (Cli.fetch_transcript env vid).1 =
      ⟨false, [], some "No English transcript available", none, none⟩ ∨
    (∃ lang gen segs, (Cli.fetch_transcript env vid).1 = ⟨true, segs, none, some lang, some gen⟩) := by
  cases hl : env.list_transcripts vid with
  | error e => exact .inl ⟨e, congrArg Prod.fst (fetch_transcript_of_list_error env vid e hl).2⟩
  | ok tl =>
    rcases hc : choose_transcript env tl with ⟨evs, r⟩
    match r with
    | .error e =>
      exact .inl ⟨e, congrArg Prod.fst (fetch_of_choose_error env vid tl evs e hl hc).2⟩
    | .ok none =>
      exact .inr (.inl (congrArg Prod.fst (fetch_of_choose_none env vid tl evs hl hc).2))
    | .ok (some t) =>
      cases hf : env.fetch t with
      | error e =>
        exact .inl ⟨e, congrArg Prod.fst (fetch_of_fetch_error env vid tl evs t e hl hc hf).2⟩
      | ok data =>
        exact .inr (.inr ⟨t.language_code, t.is_generated, data.map Cli.item_to_segment,
          congrArg Prod.fst (cli_fetch_of_chosen_ok env vid tl evs t data hl hc hf)⟩)

/-- The shape invariant holds of each of the three result forms. -/
theorem shape_of_forms (r : TranscriptResult)
    (h : (∃ e, r = handle_except e) ∨
      r = ⟨false, [], some "No English transcript available", none, none⟩ ∨
      (∃ lang gen segs, r = ⟨true, segs, none, some lang, some gen⟩)) :
    (r.error.isSome = true → r.success = false) ∧
    (r.language.isSome = true → r.success = true) ∧
    (r.isGenerated.isSome = true → r.success = true) ∧
    (r.success = false → r.segments = []) := by
  rcases h with ⟨e, rfl⟩ | rfl | ⟨lang, gen, segs, rfl⟩
  · cases e <;> simp [handle_except]
  · simp
  · simp

/-- Both front-ends return the fixed no-transcript payload, after the
three calls of the fallback chain, when neither find call succeeds and
no transcript is translatable. -/
theorem fetch_no_english (env : Env) (vid : String) (tl : TranscriptList) (m m2 : String)
    (hl : env.list_transcripts vid = .ok tl)
    (h1 : tl.find preferred_languages = .error (.noTranscriptFound m))
    (h2 : tl.find_generated preferred_languages = .error (.noTranscriptFound m2))
    (h3 : ∀ t ∈ tl.transcripts, t.is_translatable = false) :
    Api.fetch_transcript env vid =
      (⟨false, [], some "No English transcript available", none, none⟩,
       [.listCall vid, .findCall preferred_languages, .findGeneratedCall preferred_languages]) ∧
    Cli.fetch_transcript env vid =
      (⟨false, [], some "No English transcript available", none, none⟩,
       [.listCall vid, .findCall preferred_languages, .findGeneratedCall preferred_languages]) := by
  have hfind : tl.transcripts.find? (fun t => t.is_translatable) = none :=
    List.find?_eq_none.mpr (fun x hx => by simp [h3 x hx])
  have hloop : translate_loop env tl.transcripts = ([], .ok none) := by
    rw [translate_loop_eq, hfind]
  have hcc : choose_transcript env tl =
      ([.findCall preferred_languages, .findGeneratedCall preferred_languages], .ok none) := by
    rw [choose_transcript_of_both_not_found env tl m m2 h1 h2, hloop]
    rfl
  exact fetch_of_choose_none env vid tl _ hl hcc

/-- On a list of dict-style items, the HTTP per-item conversion succeeds
and agrees elementwise with the CLI per-item conversion. -/
theorem mapM_item_to_segment_of_dict (data : List FetchedItem)
    (h : ∀ item ∈ data, item.is_dict = true) :
    data.mapM Api.item_to_segment = .ok (data.map Cli.item_to_segment) := by
  induction data with
  | nil => rfl
  | cons item rest ih =>
    have hd : item.is_dict = true := h item (List.mem_cons_self _ _)
    have ih2 := ih (fun i hi => h i (List.mem_cons_of_mem _ hi))
    cases item with
    | snippet t s d => simp [FetchedItem.is_dict] at hd
    | dict t s d =>
      simp only [List.mapM_cons, List.map_cons, ih2]
      rfl

/-- A JSON value, for the `json.dumps` payloads of the two front-ends. -/
inductive Json where
  | str (s : String)
  | bool (b : Bool)
  | int (n : Int)
  | arr (elems : List Json)
  | obj (fields : List (String × Json))

/-- JSON form of one segment dict, keys in insertion order. -/
def Segment.toJson (s : Segment) : Json :=
  .obj [("text", .str s.text), ("offset", .int s.offset), ("duration", .int s.duration)]

/-- JSON form of a result dictionary: a key is present exactly when the
corresponding branch of the source put it in the dict, in the insertion
order of the source (`success`, then `error` on the failure branches,
then `segments`, then `language` and `isGenerated` on the success
branch). -/
def TranscriptResult.toJson (r : TranscriptResult) : Json :=
  .obj ((("success", Json.bool r.success) ::
      (match r.error with | some e => [("error", Json.str e)] | none => [])) ++
    ("segments", Json.arr (r.segments.map Segment.toJson)) ::
      ((match r.language with | some l => [("language", Json.str l)] | none => []) ++
       (match r.isGenerated with | some g => [("isGenerated", Json.bool g)] | none => [])))

/-- `urllib.parse.parse_qs` keeps only pairs with a non-blank value
(`keep_blank_values` is left at its default `False`). -/
def parse_qs (query : List (String × String)) : List (String × String) :=
  query.filter (fun p => p.2 != "")

/-- `query_params.get(key, [None])[0]`: the first value parse_qs kept for
the key, if any. -/
def getParam (query : List (String × String)) (key : String) : Option String :=
  ((parse_qs query).find? (fun p => p.1 = key)).map (fun p => p.2)

/-- An HTTP response: status code, headers in send order, JSON body. -/
structure HttpResponse where
  status : Nat
  headers : List (String × String)
  body : Json

/-- The body of the 400 response for a missing `videoId` parameter
(note: no `segments` key in this dict). -/
def missing_videoId_json : Json :=
  .obj [("success", .bool false), ("error", .str "Missing videoId parameter")]

/-- The 400 response of `handler.do_GET` for a missing `videoId`
parameter: only the `Content-type` header is sent on this branch. -/
def missing_videoId_response : HttpResponse :=
  ⟨400, [("Content-type", "application/json")], missing_videoId_json⟩

namespace Api

/-- `handler.do_GET` of src/api/transcript.py, taking the decoded query
pairs of the request URL; paired with the trace of library calls made
(empty when `fetch_transcript` is not invoked).  `if not video_id` is
true for a missing parameter (`None`) and for an empty string. -/
def do_GET (query : List (String × String)) (env : Env) : HttpResponse × List Event :=
  match getParam query "videoId" with
  | none => (missing_videoId_response, [])
  | some video_id =>
    if video_id = "" then (missing_videoId_response, [])
    else
      match fetch_transcript env video_id with
      | (result, evs) =>
        (⟨if result.success then 200 else 500,
          [("Content-type", "application/json"), ("Access-Control-Allow-Origin", "*")],
          result.toJson⟩, evs)

end Api

/-- What one CLI run produces: the JSON values printed to standard
output, and the process exit code. -/
structure CliOutcome where
  stdout : List Json
  exit_code : Nat

namespace Cli

/-- The fixed JSON error printed by `main` when no argument is given. -/
def no_video_id_json : Json :=
  .obj [("success", .bool false), ("error", .str "No video ID provided"),
        ("segments", .arr [])]

/-- `main` of src/scripts/transcript.py, taking `sys.argv` (program name
first); paired with the trace of library calls made. -/
def main (argv : List String) (env : Env) : CliOutcome × List Event :=
  match argv with
  | _ :: video_id :: _ =>
    match fetch_transcript env video_id with
    | (result, evs) =>
      (⟨[result.toJson], if result.success then 0 else 1⟩, evs)
  | _ => (⟨[no_video_id_json], 1⟩, [])

end Cli

/-! Concrete library behaviours used to instantiate the theorems below. -/

/-- A manually created English transcript. -/
def t_en : Transcript := ⟨"en", false, false⟩

/-- An auto-generated English transcript. -/
def t_gen : Transcript := ⟨"en", true, false⟩

/-- A non-translatable German transcript. -/
def t_de : Transcript := ⟨"de", false, false⟩

/-- A translatable French transcript. -/
def t_fr : Transcript := ⟨"fr", false, true⟩

/-- A translatable Spanish transcript, listed after the French one. -/
def t_es : Transcript := ⟨"es", false, true⟩

/-- The French transcript translated to English. -/
def t_fr_en : Transcript := ⟨"en", false, false⟩

/-- A listing with a manual English transcript. -/
def tl_manual : TranscriptList :=
  ⟨[t_en], fun _ => .ok t_en, fun _ => .error (.noTranscriptFound "nf")⟩

/-- A listing with only an auto-generated English transcript. -/
def tl_generated : TranscriptList :=
  ⟨[t_gen], fun _ => .error (.noTranscriptFound "nf1"), fun _ => .ok t_gen⟩

/-- A listing with no preferred-language transcript and no translatable
transcript. -/
def tl_none : TranscriptList :=
  ⟨[t_de], fun _ => .error (.noTranscriptFound "nf1"),
   fun _ => .error (.noTranscriptFound "nf2")⟩

/-- A listing with no preferred-language transcript but two translatable
transcripts, the French one first. -/
def tl_tr : TranscriptList :=
  ⟨[t_de, t_fr, t_es], fun _ => .error (.noTranscriptFound "nf1"),
   fun _ => .error (.noTranscriptFound "nf2")⟩

/-- A fetched item as an older-style dict: start 1.5 s, duration 2.25 s. -/
def item_dict : FetchedItem := .dict (some "hello") (some 1.5) (some 2.25)

/-- A fetched item as a v1.x snippet object. -/
def item_snippet : FetchedItem := .snippet "hi" 1.5 2.25

/-- Library behaviour: a manual English transcript with one dict item. -/
def env_manual : Env :=
  ⟨fun _ => .ok tl_manual, fun _ _ => .ok t_fr_en, fun _ => .ok [item_dict]⟩

/-- Library behaviour: only an auto-generated English transcript. -/
def env_generated : Env :=
  ⟨fun _ => .ok tl_generated, fun _ _ => .ok t_fr_en, fun _ => .ok [item_dict]⟩

/-- Library behaviour: the translation fallback is required. -/
def env_tr : Env :=
  ⟨fun _ => .ok tl_tr, fun _ _ => .ok t_fr_en, fun _ => .ok [item_dict]⟩

/-- Library behaviour: no transcript available at all. -/
def env_none : Env :=
  ⟨fun _ => .ok tl_none, fun _ _ => .ok t_fr_en, fun _ => .ok [item_dict]⟩

/-- Library behaviour: transcripts are disabled for the video. -/
def env_disabled : Env :=
  ⟨fun _ => .error (.transcriptsDisabled "disabled"), fun _ _ => .ok t_fr_en, fun _ => .ok []⟩

/-- Library behaviour: the video is unavailable. -/
def env_unavailable : Env :=
  ⟨fun _ => .error (.videoUnavailable "unavailable"), fun _ _ => .ok t_fr_en, fun _ => .ok []⟩

/-- Library behaviour: an unexpected exception from the listing call. -/
def env_boom : Env :=
  ⟨fun _ => .error (.other "boom"), fun _ _ => .ok t_fr_en, fun _ => .ok []⟩

/-- Library behaviour: a manual English transcript whose `fetch()`
yields a v1.x snippet object. -/
def env_snippet : Env :=
  ⟨fun _ => .ok tl_manual, fun _ _ => .ok t_fr_en, fun _ => .ok [item_snippet]⟩

/-- Claim C1: for every video ID `fetch_transcript` attempts the
fallback steps in exactly this order, stopping at the first success: a
transcript in the preferred set, then — only when that raises
not-found — an auto-generated transcript in the same set, then — only
when that raises not-found again — translation into English of the
first transcript in source order whose `is_translatable` flag is true;
once a translatable transcript is found, no later one is ever
translated (the traces list every library call made, in order, and the
CLI front-end makes exactly the same calls). -/
theorem C1_fallback_order (env : Env) (video_id : String) (tl : TranscriptList)
    (hl : env.list_transcripts video_id = .ok tl) :
    (∀ t, tl.find preferred_languages = .ok t →
      (Api.fetch_transcript env video_id).2 =
        [.listCall video_id, .findCall preferred_languages, .fetchCall t]) ∧
    (∀ m t, tl.find preferred_languages = .error (.noTranscriptFound m) →
      tl.find_generated preferred_languages = .ok t →
      (Api.fetch_transcript env video_id).2 =
        [.listCall video_id, .findCall preferred_languages,
         .findGeneratedCall preferred_languages, .fetchCall t]) ∧
    (∀ m m2, tl.find preferred_languages = .error (.noTranscriptFound m) →
      tl.find_generated preferred_languages = .error (.noTranscriptFound m2) →
      (∀ t0 tr, tl.transcripts.find? (fun t => t.is_translatable) = some t0 →
          env.translate t0 "en" = .ok tr →
          (Api.fetch_transcript env video_id).2 =
            [.listCall video_id, .findCall preferred_languages,
             .findGeneratedCall preferred_languages, .translateCall t0 "en", .fetchCall tr]) ∧
      (∀ t0 e, tl.transcripts.find? (fun t => t.is_translatable) = some t0 →
          env.translate t0 "en" = .error e →
          (Api.fetch_transcript env video_id).2 =
            [.listCall video_id, .findCall preferred_languages,
             .findGeneratedCall preferred_languages, .translateCall t0 "en"]) ∧
      (tl.transcripts.find? (fun t => t.is_translatable) = none →
          (Api.fetch_transcript env video_id).2 =
            [.listCall video_id, .findCall preferred_languages,
             .findGeneratedCall preferred_languages])) ∧
    (Cli.fetch_transcript env video_id).2 = (Api.fetch_transcript env video_id).2 := by
  refine ⟨?_, ?_, ?_, fetch_traces_eq env video_id⟩
  · intro t ht
    rw [api_fetch_trace_of_chosen env video_id tl [.findCall preferred_languages] t hl
        (choose_transcript_of_find_ok env tl t ht)]
    rfl
  · intro m t h1 h2
    rw [api_fetch_trace_of_chosen env video_id tl
        [.findCall preferred_languages, .findGeneratedCall preferred_languages] t hl
        (choose_transcript_of_generated_ok env tl m t h1 h2)]
    rfl
  · intro m m2 h1 h2
    have hc := choose_transcript_of_both_not_found env tl m m2 h1 h2
    refine ⟨?_, ?_, ?_⟩
    · intro t0 tr hfind htr
      have hloop : translate_loop env tl.transcripts =
          ([.translateCall t0 "en"], .ok (some tr)) := by
        rw [translate_loop_eq, hfind]
        simp only [htr]
      have hcc : choose_transcript env tl =
          ([.findCall preferred_languages, .findGeneratedCall preferred_languages,
            .translateCall t0 "en"], .ok (some tr)) := by
        rw [hc, hloop]
        rfl
      rw [api_fetch_trace_of_chosen env video_id tl _ tr hl hcc]
      rfl
    · intro t0 e hfind htr
      have hloop : translate_loop env tl.transcripts =
          ([.translateCall t0 "en"], .error e) := by
        rw [translate_loop_eq, hfind]
        simp only [htr]
      have hcc : choose_transcript env tl =
          ([.findCall preferred_languages, .findGeneratedCall preferred_languages,
            .translateCall t0 "en"], .error e) := by
        rw [hc, hloop]
        rfl
      rw [(fetch_of_choose_error env video_id tl _ e hl hcc).1]
    · intro hfind
      have hloop : translate_loop env tl.transcripts = ([], .ok none) := by
        rw [translate_loop_eq, hfind]
      have hcc : choose_transcript env tl =
          ([.findCall preferred_languages, .findGeneratedCall preferred_languages], .ok none) := by
        rw [hc, hloop]
        rfl
      rw [(fetch_of_choose_none env video_id tl _ hl hcc).1]

/-- Witness for C1: with a manual English transcript available, the run
performs exactly the listing call, one find call with the preferred
languages, and one fetch call. -/
theorem C1_fallback_order_witness :
    (Api.fetch_transcript env_manual "vid").2 =
      [.listCall "vid", .findCall preferred_languages, .fetchCall t_en] :=
  (C1_fallback_order env_manual "vid" tl_manual rfl).1 t_en rfl

/-- Claim C2: `TranscriptsDisabled` maps to the fixed
transcripts-disabled payload, `VideoUnavailable` to the fixed
"Video is unavailable" payload, not-found during the fallback to the
fixed "No English transcript available" payload, and any other
exception's message passes through verbatim (shown both for the listing
call and for the `fetch()` call), in both front-ends. -/
theorem C2_error_mapping (env : Env) (vid : String) :
    (∀ m, env.list_transcripts vid = .error (.transcriptsDisabled m) →
      (Api.fetch_transcript env vid).1 =
        ⟨false, [], some "Transcripts are disabled for this video", none, none⟩ ∧
      (Cli.fetch_transcript env vid).1 =
        ⟨false, [], some "Transcripts are disabled for this video", none, none⟩) ∧
    (∀ m, env.list_transcripts vid = .error (.videoUnavailable m) →
      (Api.fetch_transcript env vid).1 = ⟨false, [], some "Video is unavailable", none, none⟩ ∧
      (Cli.fetch_transcript env vid).1 = ⟨false, [], some "Video is unavailable", none, none⟩) ∧
    (∀ tl m m2, env.list_transcripts vid = .ok tl →
      tl.find preferred_languages = .error (.noTranscriptFound m) →
      tl.find_generated preferred_languages = .error (.noTranscriptFound m2) →
      (∀ t ∈ tl.transcripts, t.is_translatable = false) →
      (Api.fetch_transcript env vid).1 =
        ⟨false, [], some "No English transcript available", none, none⟩ ∧
      (Cli.fetch_transcript env vid).1 =
        ⟨false, [], some "No English transcript available", none, none⟩) ∧
    (∀ m, env.list_transcripts vid = .error (.other m) →
      (Api.fetch_transcript env vid).1 = ⟨false, [], some m, none, none⟩ ∧
      (Cli.fetch_transcript env vid).1 = ⟨false, [], some m, none, none⟩) ∧
    (∀ tl t m, env.list_transcripts vid = .ok tl →
      tl.find preferred_languages = .ok t → env.fetch t = .error (.other m) →
      (Api.fetch_transcript env vid).1 = ⟨false, [], some m, none, none⟩ ∧
      (Cli.fetch_transcript env vid).1 = ⟨false, [], some m, none, none⟩) := by
  refine ⟨?_, ?_, ?_, ?_, ?_⟩
  · intro m h
    have he := fetch_transcript_of_list_error env vid _ h
    exact ⟨by rw [he.1]; rfl, by rw [he.2]; rfl⟩
  · intro m h
    have he := fetch_transcript_of_list_error env vid _ h
    exact ⟨by rw [he.1]; rfl, by rw [he.2]; rfl⟩
  · intro tl m m2 hl h1 h2 h3
    have he := fetch_no_english env vid tl m m2 hl h1 h2 h3
    exact ⟨by rw [he.1], by rw [he.2]⟩
  · intro m h
    have he := fetch_transcript_of_list_error env vid _ h
    exact ⟨by rw [he.1]; rfl, by rw [he.2]; rfl⟩
  · intro tl t m hl ht hf
    have he := fetch_of_fetch_error env vid tl _ t _ hl
      (choose_transcript_of_find_ok env tl t ht) hf
    exact ⟨by rw [he.1]; rfl, by rw [he.2]; rfl⟩

/-- Witness for C2: with transcripts disabled, both front-ends return
the fixed payload. -/
theorem C2_error_mapping_witness :
    (Api.fetch_transcript env_disabled "vid").1 =
      ⟨false, [], some "Transcripts are disabled for this video", none, none⟩ ∧
    (Cli.fetch_transcript env_disabled "vid").1 =
      ⟨false, [], some "Transcripts are disabled for this video", none, none⟩ :=
  (C2_error_mapping env_disabled "vid").1 "disabled" rfl

/-- 1.5 seconds are exactly 1500 milliseconds after truncation. -/
theorem py_int_of_1_5 : py_int ((1.5 : Rat) * 1000) = 1500 := by
  rw [py_int_of_nonneg _ (by norm_num),
      show ((1.5 : Rat) * 1000) = ((1500 : Int) : Rat) by norm_num]
  exact Int.floor_intCast 1500

/-- 2.25 seconds are exactly 2250 milliseconds after truncation. -/
theorem py_int_of_2_25 : py_int ((2.25 : Rat) * 1000) = 2250 := by
  rw [py_int_of_nonneg _ (by norm_num),
      show ((2.25 : Rat) * 1000) = ((2250 : Int) : Rat) by norm_num]
  exact Int.floor_intCast 2250

/-- 1.9999 seconds are 1999.9 milliseconds, truncated to 1999 (rounding
would give 2000). -/
theorem py_int_of_1_9999 : py_int ((1.9999 : Rat) * 1000) = 1999 := by
  rw [py_int_of_nonneg _ (by norm_num),
      show ((1.9999 : Rat) * 1000) = (((19999 : Int) : Rat) / ((10 : Nat) : Rat)) by norm_num,
      Rat.floor_intCast_div_natCast]
  decide

/-- Claim C3: on success the fetched items are mapped elementwise and in
source order (same length, no reordering) to segments whose offset and
duration are the start and duration seconds times 1000, truncated; an
item with start 1.5 and duration 2.25 yields offset 1500 and duration
2250, and a fractional millisecond count is truncated, not rounded. -/
theorem C3_segment_mapping (env : Env) (vid : String) (tl : TranscriptList)
    (t : Transcript) (data : List FetchedItem)
    (hl : env.list_transcripts vid = .ok tl)
    (ht : tl.find preferred_languages = .ok t)
    (hf : env.fetch t = .ok data) :
    ((Cli.fetch_transcript env vid).1.success = true ∧
     (Cli.fetch_transcript env vid).1.segments = data.map Cli.item_to_segment ∧
     (Cli.fetch_transcript env vid).1.segments.length = data.length) ∧
    (∀ segments, data.mapM Api.item_to_segment = .ok segments →
      (Api.fetch_transcript env vid).1.success = true ∧
      (Api.fetch_transcript env vid).1.segments = segments) ∧
    (∀ txt, Cli.item_to_segment (.snippet txt 1.5 2.25) = ⟨txt, 1500, 2250⟩) ∧
    (∀ txt, Cli.item_to_segment (.dict (some txt) (some 1.5) (some 2.25)) = ⟨txt, 1500, 2250⟩) ∧
    (∀ txt, Api.item_to_segment (.dict (some txt) (some 1.5) (some 2.25)) =
      .ok ⟨txt, 1500, 2250⟩) ∧
    py_int ((1.9999 : Rat) * 1000) = 1999 := by
  have hcc := choose_transcript_of_find_ok env tl t ht
  have hcli := cli_fetch_of_chosen_ok env vid tl _ t data hl hcc hf
  refine ⟨?_, ?_, ?_, ?_, ?_, py_int_of_1_9999⟩
  · rw [hcli]
    exact ⟨rfl, rfl, (List.length_map data Cli.item_to_segment).symm ▸ rfl⟩
  · intro segments hm
    have hapi := api_fetch_of_chosen_ok env vid tl _ t data segments hl hcc hf hm
    rw [hapi]
    exact ⟨rfl, rfl⟩
  · intro txt
    simp only [Cli.item_to_segment]
    rw [py_int_of_1_5, py_int_of_2_25]
  · intro txt
    simp only [Cli.item_to_segment, Option.getD_some]
    rw [py_int_of_1_5, py_int_of_2_25]
  · intro txt
    simp only [Api.item_to_segment, Option.getD_some]
    rw [py_int_of_1_5, py_int_of_2_25]

/-- Witness for C3: with one 1.5 s / 2.25 s dict item, the CLI result's
segments are the elementwise image of the items, and the image of that
item is the 1500 / 2250 segment. -/
theorem C3_segment_mapping_witness :
    (Cli.fetch_transcript env_manual "vid").1.segments = [item_dict].map Cli.item_to_segment ∧
    Cli.item_to_segment item_dict = ⟨"hello", 1500, 2250⟩ :=
  ⟨(C3_segment_mapping env_manual "vid" tl_manual t_en [item_dict] rfl rfl rfl).1.2.1,
   (C3_segment_mapping env_manual "vid" tl_manual t_en [item_dict] rfl rfl rfl).2.2.2.1 "hello"⟩

/-- Claim C4: when the fallback chain yields no transcript — both find
calls raise not-found and no transcript is marked translatable — both
front-ends return success false, the fixed "No English transcript
available" error string, and empty segments. -/
theorem C4_no_transcript_available (env : Env) (vid : String) (tl : TranscriptList)
    (m m2 : String)
    (hl : env.list_transcripts vid = .ok tl)
    (h1 : tl.find preferred_languages = .error (.noTranscriptFound m))
    (h2 : tl.find_generated preferred_languages = .error (.noTranscriptFound m2))
    (h3 : ∀ t ∈ tl.transcripts, t.is_translatable = false) :
    (Api.fetch_transcript env vid).1 =
      ⟨false, [], some "No English transcript available", none, none⟩ ∧
    (Cli.fetch_transcript env vid).1 =
      ⟨false, [], some "No English transcript available", none, none⟩ := by
  have he := fetch_no_english env vid tl m m2 hl h1 h2 h3
  exact ⟨by rw [he.1], by rw [he.2]⟩

/-- Witness for C4: a video with one non-translatable German transcript
and no preferred-language transcript. -/
theorem C4_no_transcript_available_witness :
    (Api.fetch_transcript env_none "vid").1 =
      ⟨false, [], some "No English transcript available", none, none⟩ ∧
    (Cli.fetch_transcript env_none "vid").1 =
      ⟨false, [], some "No English transcript available", none, none⟩ :=
  C4_no_transcript_available env_none "vid" tl_none "nf1" "nf2" rfl rfl rfl (by decide)

/-- Claim C5: every result of either front-end satisfies the shape
invariant — the error field is present only on failure, the language
and isGenerated fields only on success, and segments is empty whenever
success is false. -/
theorem C5_result_shape (env : Env) (vid : String) :
    ∀ r ∈ [(Api.fetch_transcript env vid).1, (Cli.fetch_transcript env vid).1],
      (r.error.isSome = true → r.success = false) ∧
      (r.language.isSome = true → r.success = true) ∧
      (r.isGenerated.isSome = true → r.success = true) ∧
      (r.success = false → r.segments = []) := by
  intro r hr
  rcases List.mem_cons.mp hr with h | hr
  · exact h ▸ shape_of_forms _ (api_fetch_result_form env vid)
  · rcases List.mem_cons.mp hr with h | hr
    · exact h ▸ shape_of_forms _ (cli_fetch_result_form env vid)
    · exact absurd hr (List.not_mem_nil r)

/-- Witness for C5: the failing run for a video with no transcript has
empty segments, and its error is present while language is absent. -/
theorem C5_result_shape_witness :
    (Api.fetch_transcript env_none "vid").1.segments = [] ∧
    (Api.fetch_transcript env_none "vid").1.success = false :=
  ⟨(C5_result_shape env_none "vid" (Api.fetch_transcript env_none "vid").1
      (List.mem_cons_self _ _)).2.2.2 rfl,
   (C5_result_shape env_none "vid" (Api.fetch_transcript env_none "vid").1
      (List.mem_cons_self _ _)).1 rfl⟩

/-- `parse_qs` keeps no blank values, so a value it returns is
non-empty. -/
theorem getParam_some_ne_empty (query : List (String × String)) (key v : String)
    (h : getParam query key = some v) : v ≠ "" := by
  unfold getParam at h
  cases hf : (parse_qs query).find? (fun p => p.1 = key) with
  | none => rw [hf] at h; simp at h
  | some p =>
    rw [hf] at h
    simp only [Option.map_some'] at h
    have hmem : p ∈ parse_qs query := List.mem_of_find?_eq_some hf
    have hp : (p.2 != "") = true := (List.mem_filter.mp hmem).2
    rw [Option.some.injEq] at h
    rw [← h]
    exact bne_iff_ne.mp hp

/-- `do_GET` with no usable `videoId` parameter: the fixed 400 response,
and no library call. -/
theorem do_GET_of_none (query : List (String × String)) (env : Env)
    (h : getParam query "videoId" = none) :
    Api.do_GET query env = (missing_videoId_response, []) := by
  unfold Api.do_GET
  rw [h]

/-- `do_GET` with a `videoId` value: it invokes the fetch operation and
builds the response from its result. -/
theorem do_GET_of_some (query : List (String × String)) (env : Env) (vid : String)
    (h : getParam query "videoId" = some vid) :
    Api.do_GET query env =
      (⟨if (Api.fetch_transcript env vid).1.success then 200 else 500,
        [("Content-type", "application/json"), ("Access-Control-Allow-Origin", "*")],
        ((Api.fetch_transcript env vid).1).toJson⟩,
       (Api.fetch_transcript env vid).2) := by
  unfold Api.do_GET
  rw [h]
  have hne : ¬ (vid = "") := getParam_some_ne_empty query "videoId" vid h
  simp only [hne, if_false]

/-- Claim C6: a GET without a `videoId` parameter is answered 400 with
the fixed missing-parameter JSON body and without invoking the fetch
operation; any other GET invokes the fetch operation and is answered
200 when it succeeds and 500 when it fails, the body being the result
serialized as JSON. -/
theorem C6_http_contract (query : List (String × String)) (env : Env) :
    (getParam query "videoId" = none →
      Api.do_GET query env =
        (⟨400, [("Content-type", "application/json")],
          .obj [("success", .bool false), ("error", .str "Missing videoId parameter")]⟩, [])) ∧
    (∀ vid, getParam query "videoId" = some vid →
      (Api.do_GET query env).1.status =
        (if (Api.fetch_transcript env vid).1.success then 200 else 500) ∧
      (Api.do_GET query env).1.body = ((Api.fetch_transcript env vid).1).toJson ∧
      (Api.do_GET query env).2 = (Api.fetch_transcript env vid).2) := by
  constructor
  · intro h
    rw [do_GET_of_none query env h]
    rfl
  · intro vid h
    rw [do_GET_of_some query env vid h]
    exact ⟨rfl, rfl, rfl⟩

/-- Witness for C6: with a `videoId` and a library failure, the response
is 500 with the serialized failure payload; with no query at all it is
the fixed 400. -/
theorem C6_http_contract_witness :
    Api.do_GET [] env_boom =
      (⟨400, [("Content-type", "application/json")],
        .obj [("success", .bool false), ("error", .str "Missing videoId parameter")]⟩, []) ∧
    (Api.do_GET [("videoId", "abc")] env_boom).1.status = 500 := by
  refine ⟨(C6_http_contract [] env_boom).1 rfl, ?_⟩
  rw [((C6_http_contract [("videoId", "abc")] env_boom).2 "abc" rfl).1]
  rfl

/-- Claim C7 is false as stated: with identical library behaviour
whose `fetch()` yields a v1.x snippet item, the HTTP front-end's
unconditional `item.get` raises `AttributeError` and yields a failure
payload while the CLI front-end, which checks `hasattr`, succeeds, so
the two results differ. -/
theorem C7_counterexample :
    (Api.fetch_transcript env_snippet "vid").1.success = false ∧
    (Cli.fetch_transcript env_snippet "vid").1.success = true ∧
    (Api.fetch_transcript env_snippet "vid").1 ≠ (Cli.fetch_transcript env_snippet "vid").1 := by
  refine ⟨rfl, rfl, fun h => ?_⟩
  have hs : (Api.fetch_transcript env_snippet "vid").1.success =
      (Cli.fetch_transcript env_snippet "vid").1.success :=
    congrArg TranscriptResult.success h
  rw [show (Api.fetch_transcript env_snippet "vid").1.success = false from rfl,
      show (Cli.fetch_transcript env_snippet "vid").1.success = true from rfl] at hs
  exact Bool.false_ne_true hs

/-- Claim C7 amended: the two front-ends return the same result and
perform the same library calls whenever every item yielded by the
library's `fetch()` is an older-style dict; they diverge on v1.x
snippet objects, which only the CLI handles. -/
theorem C7_front_ends_agree_on_dicts (env : Env) (vid : String)
    (hd : ∀ t data, env.fetch t = .ok data → ∀ item ∈ data, item.is_dict = true) :
    Api.fetch_transcript env vid = Cli.fetch_transcript env vid := by
  cases hl : env.list_transcripts vid with
  | error e =>
    rw [(fetch_transcript_of_list_error env vid e hl).1,
        (fetch_transcript_of_list_error env vid e hl).2]
  | ok tl =>
    rcases hc : choose_transcript env tl with ⟨evs, r⟩
    match r with
    | .error e =>
      rw [(fetch_of_choose_error env vid tl evs e hl hc).1,
          (fetch_of_choose_error env vid tl evs e hl hc).2]
    | .ok none =>
      rw [(fetch_of_choose_none env vid tl evs hl hc).1,
          (fetch_of_choose_none env vid tl evs hl hc).2]
    | .ok (some t) =>
      cases hf : env.fetch t with
      | error e =>
        rw [(fetch_of_fetch_error env vid tl evs t e hl hc hf).1,
            (fetch_of_fetch_error env vid tl evs t e hl hc hf).2]
      | ok data =>
        have hm := mapM_item_to_segment_of_dict data (hd t data hf)
        rw [api_fetch_of_chosen_ok env vid tl evs t data _ hl hc hf hm,
            cli_fetch_of_chosen_ok env vid tl evs t data hl hc hf]

/-- Witness for the amended C7: with dict items only, the two front-ends
return identical results. -/
theorem C7_front_ends_agree_on_dicts_witness :
    Api.fetch_transcript env_manual "vid" = Cli.fetch_transcript env_manual "vid" :=
  C7_front_ends_agree_on_dicts env_manual "vid" (by
    intro t data hfd item hitem
    have hfd2 : Except.ok (ε := LibError) [item_dict] = Except.ok data := hfd
    have hdata : [item_dict] = data := by injection hfd2
    subst hdata
    have hi : item = item_dict := by simpa using hitem
    subst hi
    rfl)

/-- Claim C8: the CLI with no argument prints the fixed JSON error and
exits 1; with a video ID argument it invokes `fetch_transcript`, prints
the JSON result, and exits 0 when success is true and 1 when it is
false. -/
theorem C8_cli_contract (env : Env) :
    Cli.main [] env = (⟨[Cli.no_video_id_json], 1⟩, []) ∧
    (∀ argv0, Cli.main [argv0] env = (⟨[Cli.no_video_id_json], 1⟩, [])) ∧
    (∀ argv0 vid rest, Cli.main (argv0 :: vid :: rest) env =
      (⟨[((Cli.fetch_transcript env vid).1).toJson],
        if (Cli.fetch_transcript env vid).1.success then 0 else 1⟩,
       (Cli.fetch_transcript env vid).2)) := by
  refine ⟨rfl, fun argv0 => rfl, fun argv0 vid rest => ?_⟩
  unfold Cli.main
  rcases hft : Cli.fetch_transcript env vid with ⟨result, evs⟩
  simp only [hft]

/-- Claim C9 is false as stated: the 400 response for a missing
`videoId` does not carry the Access-Control-Allow-Origin header (only
the responses built after invoking the fetch operation do). -/
theorem C9_counterexample :
    (Api.do_GET [] env_boom).1.status = 400 ∧
    ("Access-Control-Allow-Origin", "*") ∉ (Api.do_GET [] env_boom).1.headers := by
  rw [do_GET_of_none [] env_boom rfl]
  exact ⟨rfl, by decide⟩

/-- Claim C9 amended: every response has a JSON body and the
Content-type header; responses built after invoking the fetch operation
also carry Access-Control-Allow-Origin *, while the 400
missing-parameter response sends only Content-type. -/
theorem C9_headers (query : List (String × String)) (env : Env) :
    (getParam query "videoId" = none →
      (Api.do_GET query env).1.headers = [("Content-type", "application/json")]) ∧
    (∀ vid, getParam query "videoId" = some vid →
      (Api.do_GET query env).1.headers =
        [("Content-type", "application/json"), ("Access-Control-Allow-Origin", "*")]) := by
  constructor
  · intro h
    rw [do_GET_of_none query env h]
    rfl
  · intro vid h
    rw [do_GET_of_some query env vid h]

/-- Witness for the amended C9 at the two kinds of requests. -/
theorem C9_headers_witness :
    (Api.do_GET [] env_boom).1.headers = [("Content-type", "application/json")] ∧
    (Api.do_GET [("videoId", "abc")] env_boom).1.headers =
      [("Content-type", "application/json"), ("Access-Control-Allow-Origin", "*")] :=
  ⟨(C9_headers [] env_boom).1 rfl, (C9_headers [("videoId", "abc")] env_boom).2 "abc" rfl⟩

/-- Claim C10: a GET whose `videoId` parameter is present but empty is
treated exactly like one without the parameter — `parse_qs` drops the
blank-valued pair, so the response is unchanged by its presence — and
when no other `videoId` value is present the response is the fixed 400
and no library call is made, so `fetch_transcript` is never invoked. -/
theorem C10_empty_videoId (pre post : List (String × String)) (env : Env) :
    Api.do_GET (pre ++ ("videoId", "") :: post) env = Api.do_GET (pre ++ post) env ∧
    (getParam (pre ++ post) "videoId" = none →
      Api.do_GET (pre ++ ("videoId", "") :: post) env = (missing_videoId_response, [])) := by
  have hq : getParam (pre ++ ("videoId", "") :: post) "videoId" =
      getParam (pre ++ post) "videoId" := by
    unfold getParam parse_qs
    simp [List.filter_append]
  constructor
  · cases hg : getParam (pre ++ post) "videoId" with
    | none => rw [do_GET_of_none _ env (hq.trans hg), do_GET_of_none _ env hg]
    | some vid => rw [do_GET_of_some _ env vid (hq.trans hg), do_GET_of_some _ env vid hg]
  · intro hg
    exact do_GET_of_none _ env (hq.trans hg)

/-- Witness for C10: a query holding only a blank `videoId` gets the
fixed 400 response with an empty call trace. -/
theorem C10_empty_videoId_witness :
    Api.do_GET [("videoId", "")] env_boom = (missing_videoId_response, []) :=
  (C10_empty_videoId [] [] env_boom).2 rfl
